import Mathlib

set_option maxHeartbeats 2000000
set_option maxRecDepth 100000
set_option linter.unnecessarySeqFocus false

/-!
Verification development for the WHIP WebRTC muxer (libavformat/rtcenc.c).

The definitions below are a shallow embedding of the C source: buffers are
lists of naturals (each byte in the range 0..255), machine arithmetic is
modelled with explicit masks and modular reductions, and stateful code is
modelled by explicit state passing. Fallible functions return an integer
return code mirroring the AVERROR conventions of the source.
-/

namespace RtcEnc

/-- Read byte `i` of a buffer; reads past the end give 0 (the C code never
reads past the end on the paths modelled here, guards are explicit). -/
def getByte (l : List Nat) (i : Nat) : Nat := l.getD i 0

/-- AVERROR for EIO, which is errno 5, so the value is -5. -/
def averror_eio : Int := -5

/-- AVERROR for EINVAL, which is errno 22, so the value is -22. -/
def averror_einval : Int := -22

/-- AVERROR for ETIMEDOUT, which is errno 110, so the value is -110. -/
def averror_etimedout : Int := -110

/-- AVERROR_INVALIDDATA is FFERRTAG('I','N','D','A'), the negated little-endian
tag 0x41444E49 = 1094995529. -/
def averror_invaliddata : Int := -1094995529

/-! ## The RTC session state machine (enum RTCState, rtcenc.c lines 818-846) -/

/-- States of `enum RTCState`, in declaration order (NONE is the zero value a
fresh `RTCContext` starts in). -/
inductive RTCState where
  | NONE
  | INIT
  | OFFER
  | ANSWER
  | NEGOTIATED
  | UDP_CONNECTED
  | ICE_CONNECTING
  | ICE_CONNECTED
  | DTLS_FINISHED
  | SRTP_FINISHED
  | READY
  | FAILED
deriving DecidableEq, Repr

/-- The integer value of each `RTCState` enumerator, as assigned by the C
`enum` declaration (NONE = 0, ... FAILED = 11). C comparisons such as
`rtc->state < RTC_STATE_OFFER` compare these values. -/
def stateIdx : RTCState → Nat
  | .NONE => 0
  | .INIT => 1
  | .OFFER => 2
  | .ANSWER => 3
  | .NEGOTIATED => 4
  | .UDP_CONNECTED => 5
  | .ICE_CONNECTING => 6
  | .ICE_CONNECTED => 7
  | .DTLS_FINISHED => 8
  | .SRTP_FINISHED => 9
  | .READY => 10
  | .FAILED => 11

/-- States of `enum DTLSState` (rtcenc.c lines 102-111). -/
inductive DTLSState where
  | NONE
  | FINISHED
  | CLOSED
  | FAILED
deriving DecidableEq, Repr

/-- Every site in rtcenc.c that assigns `rtc->state`. Each constructor names
the function containing the assignment:
 * `whipInit`: whip_init, `if (rtc->state < RTC_STATE_INIT) state = INIT`;
 * `generateSdpOffer`: generate_sdp_offer, guard `< OFFER`;
 * `exchangeSdp`: exchange_sdp, guard `< ANSWER`;
 * `parseAnswer`: parse_answer, guard `< NEGOTIATED`;
 * `udpConnect`: udp_connect, guard `< UDP_CONNECTED`;
 * `iceRequestSent`: ice_dtls_handshake after sending the binding request,
   guard `< ICE_CONNECTING`;
 * `iceBindingResponse`: ice_dtls_handshake on the first binding response,
   guard `< ICE_CONNECTED`;
 * `dtlsOnState d`: the dtls_context_on_state callback invoked with DTLS
   state `d`;
 * `setupSrtp`: setup_srtp, guard `< SRTP_FINISHED`;
 * `createRtpMuxer`: create_rtp_muxer, guard `< READY`;
 * `opFailEpilogue`: the `end:` epilogue of rtc_init / rtc_write_packet when
   `ret < 0`, `if (ret < 0 && rtc->state < RTC_STATE_FAILED) state = FAILED`.
-/
inductive RTCEvent where
  | whipInit
  | generateSdpOffer
  | exchangeSdp
  | parseAnswer
  | udpConnect
  | iceRequestSent
  | iceBindingResponse
  | dtlsOnState (d : DTLSState)
  | setupSrtp
  | createRtpMuxer
  | opFailEpilogue
deriving DecidableEq, Repr

/-- Effect of a state-assignment site on `rtc->state`, transcribed from the
guarded assignments listed at `RTCEvent`. The `dtlsOnState` arm mirrors
dtls_context_on_state (lines 947-979): CLOSED leaves the state alone,
FAILED sets FAILED unconditionally, FINISHED upgrades under the guard
`rtc->state < RTC_STATE_DTLS_FINISHED`, and the callback is never invoked
with NONE (modelled as the identity). -/
def stateStep (ev : RTCEvent) (s : RTCState) : RTCState :=
  match ev with
  | .whipInit => if stateIdx s < stateIdx .INIT then .INIT else s
  | .generateSdpOffer => if stateIdx s < stateIdx .OFFER then .OFFER else s
  | .exchangeSdp => if stateIdx s < stateIdx .ANSWER then .ANSWER else s
  | .parseAnswer => if stateIdx s < stateIdx .NEGOTIATED then .NEGOTIATED else s
  | .udpConnect => if stateIdx s < stateIdx .UDP_CONNECTED then .UDP_CONNECTED else s
  | .iceRequestSent => if stateIdx s < stateIdx .ICE_CONNECTING then .ICE_CONNECTING else s
  | .iceBindingResponse => if stateIdx s < stateIdx .ICE_CONNECTED then .ICE_CONNECTED else s
  | .dtlsOnState d =>
    match d with
    | .CLOSED => s
    | .FAILED => .FAILED
    | .FINISHED => if stateIdx s < stateIdx .DTLS_FINISHED then .DTLS_FINISHED else s
    | .NONE => s
  | .setupSrtp => if stateIdx s < stateIdx .SRTP_FINISHED then .SRTP_FINISHED else s
  | .createRtpMuxer => if stateIdx s < stateIdx .READY then .READY else s
  | .opFailEpilogue => if stateIdx s < stateIdx .FAILED then .FAILED else s

/-- C2: for every operation of the muxer that touches `rtc->state` (init
pipeline stages, handshake loop, DTLS state callback, per-packet write
epilogue) the state never decreases in the enum order that ends with FAILED
on top, and FAILED is absorbing: no operation moves a FAILED session to any
other state. -/
theorem rtc_state_monotone_c2 :
    ∀ (ev : RTCEvent) (s : RTCState),
      stateIdx s ≤ stateIdx (stateStep ev s) ∧ stateStep ev RTCState.FAILED = RTCState.FAILED := by
  intro ev s
  cases ev with
  | dtlsOnState d => cases d <;> cases s <;> exact ⟨by decide, by decide⟩
  | whipInit => cases s <;> exact ⟨by decide, by decide⟩
  | generateSdpOffer => cases s <;> exact ⟨by decide, by decide⟩
  | exchangeSdp => cases s <;> exact ⟨by decide, by decide⟩
  | parseAnswer => cases s <;> exact ⟨by decide, by decide⟩
  | udpConnect => cases s <;> exact ⟨by decide, by decide⟩
  | iceRequestSent => cases s <;> exact ⟨by decide, by decide⟩
  | iceBindingResponse => cases s <;> exact ⟨by decide, by decide⟩
  | setupSrtp => cases s <;> exact ⟨by decide, by decide⟩
  | createRtpMuxer => cases s <;> exact ⟨by decide, by decide⟩
  | opFailEpilogue => cases s <;> exact ⟨by decide, by decide⟩

/-! ## The DTLS callback and the write-packet epilogue (C9) -/

/-- The fields of `RTCContext` read and written by the DTLS state callback and
by the epilogue of rtc_write_packet. -/
structure Session where
  state : RTCState
  dtls_ret : Int
  dtls_closed : Bool
deriving DecidableEq, Repr

/-- dtls_context_on_state (rtcenc.c lines 947-979): on CLOSED set
`dtls_closed = 1`; on FAILED set `state = FAILED` and `dtls_ret =
AVERROR(EIO)`; on FINISHED upgrade the state under the guard
`rtc->state < RTC_STATE_DTLS_FINISHED`; otherwise fall through unchanged. -/
def dtls_context_on_state (d : DTLSState) (s : Session) : Session :=
  if d = .CLOSED then { s with dtls_closed := true }
  else if d = .FAILED then { s with state := .FAILED, dtls_ret := averror_eio }
  else if d = .FINISHED ∧ stateIdx s.state < stateIdx .DTLS_FINISHED then
    { s with state := .DTLS_FINISHED }
  else s

/-- The `end:` epilogue of rtc_write_packet (rtcenc.c lines 2379-2386):
`if (ret < 0 && state < FAILED) state = FAILED;`
`if (ret >= 0 && state >= FAILED && dtls_ret < 0) ret = dtls_ret;`
`if (ret >= 0 && dtls_closed) ret = AVERROR(EIO);` returning the final pair. -/
def rtc_write_packet_epilogue (ret : Int) (s : Session) : Int × Session :=
  let s1 := if ret < 0 ∧ stateIdx s.state < stateIdx .FAILED then { s with state := .FAILED } else s
  let r1 := if 0 ≤ ret ∧ stateIdx .FAILED ≤ stateIdx s1.state ∧ s1.dtls_ret < 0 then s1.dtls_ret else ret
  let r2 := if 0 ≤ r1 ∧ s1.dtls_closed then averror_eio else r1
  (r2, s1)

/-- C9: once the DTLS adapter reports CLOSED the `dtls_closed` flag is set,
the flag is never cleared by any later DTLS callback, and every
rtc_write_packet call whose own processing yields `ret >= 0` returns
AVERROR(EIO) from the epilogue (`dtls_ret` is only ever 0 or AVERROR(EIO) in
the source, which the last hypothesis records). -/
theorem dtls_closed_forces_eio_c9 :
    ∀ (s : Session) (ret : Int),
      (dtls_context_on_state .CLOSED s).dtls_closed = true ∧
      (∀ d : DTLSState, s.dtls_closed = true → (dtls_context_on_state d s).dtls_closed = true) ∧
      (s.dtls_closed = true → (s.dtls_ret = 0 ∨ s.dtls_ret = averror_eio) → 0 ≤ ret →
        (rtc_write_packet_epilogue ret s).1 = averror_eio) := by
  intro s ret
  refine ⟨rfl, ?_, ?_⟩
  · intro d hc
    cases d <;> simp [dtls_context_on_state, hc] <;> split <;> simp [hc]
  · intro hc hr hret
    have hnot : ¬ (ret < 0 ∧ stateIdx s.state < stateIdx .FAILED) := by
      intro h
      exact absurd h.1 (not_lt.mpr hret)
    simp only [rtc_write_packet_epilogue, if_neg hnot]
    by_cases h : 0 ≤ ret ∧ stateIdx .FAILED ≤ stateIdx s.state ∧ s.dtls_ret < 0
    · rw [if_pos h]
      have he : s.dtls_ret = averror_eio := by
        rcases hr with h0 | he
        · rw [h0] at h
          exact absurd h.2.2 (by norm_num)
        · exact he
      rw [he, if_neg]
      intro hcon
      exact absurd hcon.1 (by norm_num [averror_eio])
    · rw [if_neg h, if_pos ⟨hret, hc⟩]

/-- Witness for C9 at a concrete session and return code. -/
theorem dtls_closed_forces_eio_c9_witness :
    (rtc_write_packet_epilogue 0 ⟨RTCState.READY, 0, true⟩).1 = averror_eio :=
  (dtls_closed_forces_eio_c9 ⟨RTCState.READY, 0, true⟩ 0).2.2 rfl (Or.inl rfl) (by norm_num)

/-! ## SRTP key derivation (setup_srtp, rtcenc.c lines 1912-1986) -/

/-- Alphabet of standard base64. -/
def b64_alphabet : List Char :=
  "ABCDEFGHIJKLMNOPQRSTUVWXYZabcdefghijklmnopqrstuvwxyz0123456789+/".toList

/-- Character for a 6-bit group. -/
def b64_char (n : Nat) : Char := b64_alphabet.getD n 'A'

/-- Modelled from the spec: av_base64_encode (libavutil/base64.c, not under
src/) is described by the spec as plain base64 encoding of the key
("Base64-encode each"), implemented here as standard RFC 4648 base64 with
padding. -/
def av_base64_encode : List Nat → List Char
  | a :: b :: c :: rest =>
    b64_char (a / 4) :: b64_char (a % 4 * 16 + b / 16) ::
      b64_char (b % 16 * 4 + c / 64) :: b64_char (c % 64) :: av_base64_encode rest
  | [a, b] => [b64_char (a / 4), b64_char (a % 4 * 16 + b / 16), b64_char (b % 16 * 4), '=']
  | [a] => [b64_char (a / 4), b64_char (a % 4 * 16), '=', '=']
  | [] => []

/-- The four SRTP contexts keyed by setup_srtp, in the order the
ff_srtp_set_crypto calls occur in the source. -/
inductive SRTPCtxId where
  | audioSend
  | videoSend
  | rtcpSend
  | recv
deriving DecidableEq, Repr

/-- One call to ff_srtp_set_crypto: which context, the suite string, and the
base64-encoded key handed over. -/
structure SRTPCryptoCall where
  ctx : SRTPCtxId
  suite : String
  key : List Char
deriving DecidableEq, Repr

/-- setup_srtp (rtcenc.c lines 1912-1986), as the sequence of
ff_srtp_set_crypto calls it performs. The DTLS keying material has layout
client_key(16) | server_key(16) | client_salt(14) | server_salt(14)
(the pointer arithmetic at lines 1927-1930); the recv key is
client_key ++ client_salt and the send key is server_key ++ server_salt
(the memcpys at lines 1933-1938); each is base64-encoded and passed with
suite AES_CM_128_HMAC_SHA1_80 to the audio-send, video-send, rtcp-send and
recv contexts in that order. -/
def setup_srtp (materials : List Nat) : List SRTPCryptoCall :=
  let client_key := materials.take 16
  let server_key := (materials.drop 16).take 16
  let client_salt := (materials.drop 32).take 14
  let server_salt := (materials.drop 46).take 14
  let recv_key := client_key ++ client_salt
  let send_key := server_key ++ server_salt
  let suite := "AES_CM_128_HMAC_SHA1_80"
  let sendBuf := av_base64_encode send_key
  let recvBuf := av_base64_encode recv_key
  [⟨.audioSend, suite, sendBuf⟩, ⟨.videoSend, suite, sendBuf⟩,
   ⟨.rtcpSend, suite, sendBuf⟩, ⟨.recv, suite, recvBuf⟩]

/-- The bytes `off`, `off+1`, ..., `off+len-1` of a buffer. -/
def byteSeg (m : List Nat) (off len : Nat) : List Nat :=
  (List.range len).map fun i => getByte m (off + i)

theorem byteSeg_eq_drop_take (m : List Nat) (off len : Nat) (h : off + len ≤ m.length) :
    (m.drop off).take len = byteSeg m off len := by
  apply List.ext_getElem
  · simp only [List.length_take, List.length_drop, byteSeg, List.length_map, List.length_range]
    omega
  · intro i h1 h2
    have hi : i < len := by
      simpa [byteSeg] using h2
    have hoff : off + i < m.length := by omega
    simp only [List.getElem_take, List.getElem_drop, byteSeg, List.getElem_map,
      List.getElem_range]
    simp only [getByte, List.getD_eq_getElem?_getD, List.getElem?_eq_getElem hoff,
      Option.getD_some]

/-- C1: given 60 bytes of DTLS keying material laid out
client_key(16) | server_key(16) | client_salt(14) | server_salt(14),
setup_srtp keys the audio-send, video-send and rtcp-send contexts with the
base64 encoding of material bytes 16..31 followed by 46..59
(server_key ++ server_salt), and the recv context with the base64 encoding of
bytes 0..15 followed by 32..45 (client_key ++ client_salt), every call using
suite AES_CM_128_HMAC_SHA1_80. -/
theorem setup_srtp_key_split_c1 :
    ∀ materials : List Nat, materials.length = 60 →
      setup_srtp materials =
        [⟨.audioSend, "AES_CM_128_HMAC_SHA1_80",
            av_base64_encode (byteSeg materials 16 16 ++ byteSeg materials 46 14)⟩,
         ⟨.videoSend, "AES_CM_128_HMAC_SHA1_80",
            av_base64_encode (byteSeg materials 16 16 ++ byteSeg materials 46 14)⟩,
         ⟨.rtcpSend, "AES_CM_128_HMAC_SHA1_80",
            av_base64_encode (byteSeg materials 16 16 ++ byteSeg materials 46 14)⟩,
         ⟨.recv, "AES_CM_128_HMAC_SHA1_80",
            av_base64_encode (byteSeg materials 0 16 ++ byteSeg materials 32 14)⟩] := by
  intro m hm
  have h0 : m.take 16 = byteSeg m 0 16 := by
    simpa using byteSeg_eq_drop_take m 0 16 (by omega)
  have h16 : (m.drop 16).take 16 = byteSeg m 16 16 := byteSeg_eq_drop_take m 16 16 (by omega)
  have h32 : (m.drop 32).take 14 = byteSeg m 32 14 := byteSeg_eq_drop_take m 32 14 (by omega)
  have h46 : (m.drop 46).take 14 = byteSeg m 46 14 := byteSeg_eq_drop_take m 46 14 (by omega)
  simp only [setup_srtp, h0, h16, h32, h46]

/-- Witness for C1 at the concrete material 0,1,...,59. -/
theorem setup_srtp_key_split_c1_witness :
    setup_srtp (List.range 60) =
      [⟨.audioSend, "AES_CM_128_HMAC_SHA1_80",
          av_base64_encode (byteSeg (List.range 60) 16 16 ++ byteSeg (List.range 60) 46 14)⟩,
       ⟨.videoSend, "AES_CM_128_HMAC_SHA1_80",
          av_base64_encode (byteSeg (List.range 60) 16 16 ++ byteSeg (List.range 60) 46 14)⟩,
       ⟨.rtcpSend, "AES_CM_128_HMAC_SHA1_80",
          av_base64_encode (byteSeg (List.range 60) 16 16 ++ byteSeg (List.range 60) 46 14)⟩,
       ⟨.recv, "AES_CM_128_HMAC_SHA1_80",
          av_base64_encode (byteSeg (List.range 60) 0 16 ++ byteSeg (List.range 60) 32 14)⟩] :=
  setup_srtp_key_split_c1 (List.range 60) (by simp)

/-! ## Audio timestamp override (rtc_write_packet, rtcenc.c lines 2352-2361) -/

/-- The packet fields rtc_write_packet touches for the timestamp override. -/
structure MediaPacket where
  pts : Int
  dts : Int
  isAudio : Bool
deriving DecidableEq, Repr, Inhabited

/-- The audio branch of rtc_write_packet (lines 2352-2361): when the stream's
codec type is audio, `pkt->dts = pkt->pts = rtc->audio_jitter_base` and then
`rtc->audio_jitter_base += 960`; other packets leave both untouched. Returns
the rewritten packet and the new jitter base. -/
def audio_jitter_correct (base : Int) (pkt : MediaPacket) : MediaPacket × Int :=
  if pkt.isAudio then ({ pkt with pts := base, dts := base }, base + 960)
  else (pkt, base)

/-- Iterating rtc_write_packet's timestamp override over a stream of packets,
threading `audio_jitter_base` (zero-initialized in a fresh RTCContext). -/
def audio_jitter_run (base : Int) : List MediaPacket → List MediaPacket
  | [] => []
  | p :: ps =>
    let r := audio_jitter_correct base p
    r.1 :: audio_jitter_run r.2 ps

theorem audio_jitter_run_nth (pkts : List MediaPacket) (hall : ∀ p ∈ pkts, p.isAudio = true) :
    ∀ (base : Int) (n : Nat), n < pkts.length →
      ((audio_jitter_run base pkts).getD n default).pts = base + 960 * n ∧
      ((audio_jitter_run base pkts).getD n default).dts = base + 960 * n := by
  induction pkts with
  | nil =>
    intro base n hn
    simp at hn
  | cons p ps ih =>
    intro base n hn
    have hp : p.isAudio = true := hall p (List.mem_cons_self p ps)
    have hall' : ∀ q ∈ ps, q.isAudio = true := fun q hq => hall q (List.mem_cons_of_mem p hq)
    cases n with
    | zero =>
      simp [audio_jitter_run, audio_jitter_correct, hp]
    | succ k =>
      have hk : k < ps.length := by
        simpa using Nat.lt_of_succ_lt_succ hn
      have := ih hall' (base + 960) k hk
      simp only [audio_jitter_run, audio_jitter_correct, hp, if_pos, List.getD_cons_succ]
      constructor
      · rw [this.1]; push_cast; ring
      · rw [this.2]; push_cast; ring

/-- C6: every audio packet handed to rtc_write_packet has its pts and dts
both overwritten with the current audio_jitter_base (whatever they were on
input), the base then advances by exactly 960, and consequently the n-th
audio packet written from a fresh session (base 0) carries timestamp 960*n. -/
theorem audio_timestamp_override_c6 :
    ∀ (base : Int) (pkt : MediaPacket), pkt.isAudio = true →
      ((audio_jitter_correct base pkt).1.pts = base ∧
       (audio_jitter_correct base pkt).1.dts = base ∧
       (audio_jitter_correct base pkt).2 = base + 960) ∧
      (∀ (pkts : List MediaPacket), (∀ p ∈ pkts, p.isAudio = true) →
        ∀ n : Nat, n < pkts.length →
          ((audio_jitter_run 0 pkts).getD n default).pts = 960 * n ∧
          ((audio_jitter_run 0 pkts).getD n default).dts = 960 * n) := by
  intro base pkt hp
  constructor
  · simp [audio_jitter_correct, hp]
  · intro pkts hall n hn
    have := audio_jitter_run_nth pkts hall 0 n hn
    simpa using this

/-- Witness for C6: three audio packets with junk input timestamps; the
packet at index 2 comes out with pts = dts = 1920. -/
theorem audio_timestamp_override_c6_witness :
    ((audio_jitter_correct 0 ⟨77, 55, true⟩).1.pts = 0 ∧
     (audio_jitter_correct 0 ⟨77, 55, true⟩).1.dts = 0 ∧
     (audio_jitter_correct 0 ⟨77, 55, true⟩).2 = 0 + 960) ∧
    (((audio_jitter_run 0 [⟨77, 55, true⟩, ⟨-3, 9, true⟩, ⟨123, 456, true⟩]).getD 2 default).pts
        = 960 * 2 ∧
     ((audio_jitter_run 0 [⟨77, 55, true⟩, ⟨-3, 9, true⟩, ⟨123, 456, true⟩]).getD 2 default).dts
        = 960 * 2) := by
  have h := audio_timestamp_override_c6 0 ⟨77, 55, true⟩ rfl
  refine ⟨h.1, ?_⟩
  exact h.2 [⟨77, 55, true⟩, ⟨-3, 9, true⟩, ⟨123, 456, true⟩] (by decide) 2 (by decide)

/-! ## The per-packet send hook (on_rtp_write_packet, rtcenc.c lines 2111-2166) -/

theorem getByte_set_ne (l : List Nat) {j i : Nat} (v : Nat) (h : j ≠ i) :
    getByte (l.set j v) i = getByte l i := by
  simp [getByte, List.getD_eq_getElem?_getD, List.getElem?_set_ne h]

theorem getByte_set_self (l : List Nat) {j : Nat} (v : Nat) (h : j < l.length) :
    getByte (l.set j v) j = v := by
  simp [getByte, List.getD_eq_getElem?_getD, List.getElem?_set_eq_of_lt v h]

theorem getByte_lt_of_forall (l : List Nat) (i : Nat) (hb : ∀ b ∈ l, b < 256)
    (hi : i < l.length) : getByte l i < 256 := by
  have : getByte l i = l[i] := by
    simp [getByte, List.getD_eq_getElem?_getD, List.getElem?_eq_getElem hi]
  rw [this]
  exact hb _ (List.getElem_mem hi)

/-- The payload types the muxer configures: audio PT 111 and video PT 106
(generate_sdp_offer, rtcenc.c lines 1259-1260). -/
structure RTPConfig where
  audio_payload_type : Nat
  video_payload_type : Nat
deriving DecidableEq, Repr

/-- The configuration generate_sdp_offer installs in every session. -/
def whip_payload_types : RTPConfig := ⟨111, 106⟩

/-- What one on_rtp_write_packet call does, seen from outside: `ignored`
returns 0 before any encryption (not RTP/RTCP or unknown payload type);
`dropped buf` means `buf` was encrypted but the ciphertext failed the size
check, 0 is returned and nothing is sent; `sent buf cs` means `buf` was
encrypted into a `cs`-byte ciphertext that was written to the UDP socket. -/
inductive RTPWriteOutcome where
  | ignored
  | dropped (encrypted_input : List Nat)
  | sent (encrypted_input : List Nat) (cipher_size : Int)
deriving DecidableEq, Repr

/-- First statement of the STAP-A fix-up (rtcenc.c lines 2139-2141):
`if (buf[1] & 0x80) buf[1] &= 0x7f;` clearing the marker bit. -/
def stap_a_marker (buf : List Nat) : List Nat :=
  if getByte buf 1 &&& 0x80 ≠ 0 then buf.set 1 (getByte buf 1 &&& 0x7f) else buf

/-- Second statement of the STAP-A fix-up (rtcenc.c lines 2143-2145): when
byte 15 exists and its NRI bits (mask 0x60) differ from byte 12's, rewrite
byte 12 as `(buf[12]&0x80) | (buf[15]&0x60) | (buf[12]&0x1f)`. -/
def stap_a_nri (buf : List Nat) : List Nat :=
  if buf.length > 15 ∧ getByte buf 15 &&& 0x60 ≠ getByte buf 12 &&& 0x60 then
    buf.set 12 ((getByte buf 12 &&& 0x80) ||| (getByte buf 15 &&& 0x60) |||
      (getByte buf 12 &&& 0x1f))
  else buf

/-- The STAP-A fix-up body: the two statements in source order. -/
def stap_a_fixup (buf : List Nat) : List Nat := stap_a_nri (stap_a_marker buf)

/-- The buffer on_rtp_write_packet hands to ff_srtp_encrypt: the STAP-A
fix-up is applied exactly when the packet is video (payload type equal to
the configured video PT), longer than 12 bytes, and byte 12's low five bits
are NALU_TYPE_STAP_A = 24 (rtcenc.c lines 2136-2147). -/
def rtp_process (cfg : RTPConfig) (buf : List Nat) : List Nat :=
  if getByte buf 1 &&& 0x7f = cfg.video_payload_type ∧ buf.length > 12 ∧
      getByte buf 12 &&& 0x1f = 24 then
    stap_a_fixup buf
  else buf

/-- on_rtp_write_packet (rtcenc.c lines 2111-2166). `encrypt` abstracts
ff_srtp_encrypt, returning the ciphertext length for a given plaintext.
The function drops non-RTP buffers (`buf_size < 12` or version bits not
0x80), drops unknown payload types, applies the STAP-A fix-up, encrypts,
and sends only ciphertexts that are positive and at least as long as the
plaintext. -/
def on_rtp_write_packet (cfg : RTPConfig) (encrypt : List Nat → Int)
    (buf : List Nat) : RTPWriteOutcome :=
  if buf.length < 12 ∨ getByte buf 0 &&& 0xC0 ≠ 0x80 then .ignored
  else
    let b1 := getByte buf 1
    let is_rtcp := 192 ≤ b1 ∧ b1 ≤ 223
    let payload_type := b1 &&& 0x7f
    if ¬is_rtcp ∧ payload_type ≠ cfg.video_payload_type ∧
        payload_type ≠ cfg.audio_payload_type then .ignored
    else
      let buf2 := rtp_process cfg buf
      let cipher_size := encrypt buf2
      if cipher_size ≤ 0 ∨ cipher_size < (buf.length : Int) then .dropped buf2
      else .sent buf2 cipher_size

theorem lor_land_right (a b c : Nat) : (a ||| b) &&& c = (a &&& c) ||| (b &&& c) := by
  apply Nat.eq_of_testBit_eq
  intro k
  simp only [Nat.testBit_land, Nat.testBit_lor]
  cases a.testBit k <;> cases b.testBit k <;> cases c.testBit k <;> rfl

theorem land_const_collapse (a m n : Nat) : a &&& m &&& n = a &&& (m &&& n) :=
  Nat.land_assoc a m n

theorem byte_and7f_and80 (b : Nat) : b &&& 0x7f &&& 0x80 = 0 := by
  rw [land_const_collapse, show (0x7f &&& 0x80 : Nat) = 0 by decide, Nat.and_zero]

theorem byte_nri_keep_f (a c : Nat) :
    ((a &&& 0x80) ||| (c &&& 0x60) ||| (a &&& 0x1f)) &&& 0x80 = a &&& 0x80 := by
  rw [lor_land_right, lor_land_right, land_const_collapse, land_const_collapse,
    land_const_collapse, show (0x80 &&& 0x80 : Nat) = 0x80 by decide,
    show (0x60 &&& 0x80 : Nat) = 0 by decide, show (0x1f &&& 0x80 : Nat) = 0 by decide]
  simp

theorem byte_nri_take_nri (a c : Nat) :
    ((a &&& 0x80) ||| (c &&& 0x60) ||| (a &&& 0x1f)) &&& 0x60 = c &&& 0x60 := by
  rw [lor_land_right, lor_land_right, land_const_collapse, land_const_collapse,
    land_const_collapse, show (0x80 &&& 0x60 : Nat) = 0 by decide,
    show (0x60 &&& 0x60 : Nat) = 0x60 by decide, show (0x1f &&& 0x60 : Nat) = 0 by decide]
  simp

theorem byte_nri_keep_type (a c : Nat) :
    ((a &&& 0x80) ||| (c &&& 0x60) ||| (a &&& 0x1f)) &&& 0x1f = a &&& 0x1f := by
  rw [lor_land_right, lor_land_right, land_const_collapse, land_const_collapse,
    land_const_collapse, show (0x80 &&& 0x1f : Nat) = 0 by decide,
    show (0x60 &&& 0x1f : Nat) = 0 by decide, show (0x1f &&& 0x1f : Nat) = 0x1f by decide]
  simp

theorem length_stap_a_marker (buf : List Nat) : (stap_a_marker buf).length = buf.length := by
  unfold stap_a_marker
  split <;> simp

theorem length_stap_a_nri (buf : List Nat) : (stap_a_nri buf).length = buf.length := by
  unfold stap_a_nri
  split <;> simp

theorem getByte_stap_a_marker_ne (buf : List Nat) {i : Nat} (h : i ≠ 1) :
    getByte (stap_a_marker buf) i = getByte buf i := by
  unfold stap_a_marker
  split
  · exact getByte_set_ne buf _ (Ne.symm h)
  · rfl

theorem getByte_stap_a_nri_ne (buf : List Nat) {i : Nat} (h : i ≠ 12) :
    getByte (stap_a_nri buf) i = getByte buf i := by
  unfold stap_a_nri
  split
  · exact getByte_set_ne buf _ (Ne.symm h)
  · rfl

theorem marker_cleared (buf : List Nat) (h1 : 1 < buf.length) :
    getByte (stap_a_marker buf) 1 &&& 0x80 = 0 := by
  unfold stap_a_marker
  split
  · rw [getByte_set_self buf _ h1]
    exact byte_and7f_and80 _
  · rename_i hm
    simpa using hm

/-- C4: a video RTP packet (version bits 0x80, payload type equal to the
configured video PT) longer than 15 bytes whose byte 12 has NAL type 24
(STAP-A) comes out of the fix-up with the marker bit of byte 1 cleared; and
when byte 15's NRI bits differed from byte 12's, byte 12's NRI bits are
rewritten to byte 15's while its F bit and type bits are preserved. -/
theorem stap_a_fixup_marker_nri_c4 :
    ∀ (cfg : RTPConfig) (buf : List Nat),
      15 < buf.length →
      getByte buf 0 &&& 0xC0 = 0x80 →
      getByte buf 1 &&& 0x7f = cfg.video_payload_type →
      getByte buf 12 &&& 0x1f = 24 →
      getByte (rtp_process cfg buf) 1 &&& 0x80 = 0 ∧
      (getByte buf 15 &&& 0x60 ≠ getByte buf 12 &&& 0x60 →
        getByte (rtp_process cfg buf) 12 &&& 0x60 = getByte buf 15 &&& 0x60 ∧
        getByte (rtp_process cfg buf) 12 &&& 0x80 = getByte buf 12 &&& 0x80 ∧
        getByte (rtp_process cfg buf) 12 &&& 0x1f = getByte buf 12 &&& 0x1f) := by
  intro cfg buf hlen hver hpt hstap
  have hproc : rtp_process cfg buf = stap_a_fixup buf := by
    unfold rtp_process
    rw [if_pos ⟨hpt, by omega, hstap⟩]
  rw [hproc]
  have hm12 : getByte (stap_a_marker buf) 12 = getByte buf 12 :=
    getByte_stap_a_marker_ne buf (by omega)
  have hm15 : getByte (stap_a_marker buf) 15 = getByte buf 15 :=
    getByte_stap_a_marker_ne buf (by omega)
  have hmlen : (stap_a_marker buf).length = buf.length := length_stap_a_marker buf
  have hm1 : getByte (stap_a_marker buf) 1 &&& 0x80 = 0 := marker_cleared buf (by omega)
  unfold stap_a_fixup stap_a_nri
  by_cases hd : getByte buf 15 &&& 0x60 ≠ getByte buf 12 &&& 0x60
  · rw [if_pos ⟨by rw [hmlen]; omega, by rw [hm15, hm12]; exact hd⟩]
    constructor
    · rw [getByte_set_ne _ _ (by omega : (12 : Nat) ≠ 1)]
      exact hm1
    · intro _
      rw [getByte_set_self _ _ (by rw [hmlen]; omega), hm12, hm15]
      exact ⟨byte_nri_take_nri _ _, byte_nri_keep_f _ _, byte_nri_keep_type _ _⟩
  · have hno : ¬ ((stap_a_marker buf).length > 15 ∧
        getByte (stap_a_marker buf) 15 &&& 0x60 ≠ getByte (stap_a_marker buf) 12 &&& 0x60) := by
      rw [hm15, hm12, hmlen]
      intro hcon
      exact hd hcon.2
    rw [if_neg hno]
    exact ⟨hm1, fun h => absurd h hd⟩

/-- Witness for C4 at the spec's concrete scenario: STAP-A packet with
marker set, outer NRI 0, inner NRI 0x60; after the fix-up the marker is 0
and byte 12's NRI bits are 0x60. -/
theorem stap_a_fixup_marker_nri_c4_witness :
    getByte (rtp_process whip_payload_types
        [0x80, 0xEA, 0, 0, 0, 0, 0, 0, 0, 0, 0, 0, 0x18, 0, 0, 0x78]) 1 &&& 0x80 = 0 ∧
    getByte (rtp_process whip_payload_types
        [0x80, 0xEA, 0, 0, 0, 0, 0, 0, 0, 0, 0, 0, 0x18, 0, 0, 0x78]) 12 &&& 0x60 =
      getByte [0x80, 0xEA, 0, 0, 0, 0, 0, 0, 0, 0, 0, 0, 0x18, 0, 0, 0x78] 15 &&& 0x60 := by
  refine ⟨(stap_a_fixup_marker_nri_c4 whip_payload_types
      [0x80, 0xEA, 0, 0, 0, 0, 0, 0, 0, 0, 0, 0, 0x18, 0, 0, 0x78]
      (by decide) (by decide) (by decide) (by decide)).1,
    ((stap_a_fixup_marker_nri_c4 whip_payload_types
      [0x80, 0xEA, 0, 0, 0, 0, 0, 0, 0, 0, 0, 0, 0x18, 0, 0, 0x78]
      (by decide) (by decide) (by decide) (by decide)).2 (by decide)).1⟩

/-- C5: a ciphertext is written to the UDP socket only when the SRTP result
length is positive and at least the plaintext length; when the encryption
result is shorter than the input the call sends nothing (the outcome is
`ignored` or `dropped`, both of which return 0). -/
theorem srtp_size_gate_c5 :
    ∀ (cfg : RTPConfig) (encrypt : List Nat → Int) (buf m : List Nat) (cs : Int),
      (on_rtp_write_packet cfg encrypt buf = .sent m cs →
        (buf.length : Int) ≤ cs ∧ 0 < cs) ∧
      (encrypt (rtp_process cfg buf) < (buf.length : Int) →
        on_rtp_write_packet cfg encrypt buf = .ignored ∨
        on_rtp_write_packet cfg encrypt buf = .dropped (rtp_process cfg buf)) := by
  intro cfg encrypt buf m cs
  constructor
  · intro h
    simp only [on_rtp_write_packet] at h
    split at h
    · cases h
    · split at h
      · cases h
      · split at h
        · cases h
        · rename_i hcond
          push_neg at hcond
          injection h with hm hcs
          subst hcs
          exact ⟨hcond.2, hcond.1⟩
  · intro hlt
    simp only [on_rtp_write_packet]
    split
    · left
      rfl
    · split
      · left
        rfl
      · right
        rw [if_pos (Or.inr hlt)]

/-- Witness for C5 at a concrete audio RTP packet and an encryption oracle
adding a 10-byte tag. -/
theorem srtp_size_gate_c5_witness :
    (([0x80, 111, 0, 0, 0, 0, 0, 0, 0, 0, 0, 0] : List Nat).length : Int) ≤ 22 ∧
      (0 : Int) < 22 :=
  (srtp_size_gate_c5 whip_payload_types (fun l => (l.length : Int) + 10)
    [0x80, 111, 0, 0, 0, 0, 0, 0, 0, 0, 0, 0]
    [0x80, 111, 0, 0, 0, 0, 0, 0, 0, 0, 0, 0] 22).1 (by decide)

theorem on_rtp_encrypted_input (cfg : RTPConfig) (encrypt : List Nat → Int)
    (buf m : List Nat) :
    ((∃ cs, on_rtp_write_packet cfg encrypt buf = .sent m cs) ∨
      on_rtp_write_packet cfg encrypt buf = .dropped m) →
    m = rtp_process cfg buf := by
  intro h
  rcases h with ⟨cs, h⟩ | h
  · simp only [on_rtp_write_packet] at h
    split at h
    · cases h
    · split at h
      · cases h
      · split at h
        · cases h
        · injection h with hm hcs
          exact hm.symm
  · simp only [on_rtp_write_packet] at h
    split at h
    · cases h
    · split at h
      · cases h
      · split at h
        · injection h with hm
          exact hm.symm
        · cases h

/-- C10: the buffer handed to SRTP encryption (for a packet that gets that
far, i.e. outcome `sent` or `dropped`) is the input buffer itself unless the
packet is video STAP-A; and even then only bytes 1 and 12 may differ, all
other bytes and the length being unchanged. -/
theorem on_rtp_frame_c10 :
    ∀ (encrypt : List Nat → Int) (buf m : List Nat),
      ((∃ cs, on_rtp_write_packet whip_payload_types encrypt buf = .sent m cs) ∨
        on_rtp_write_packet whip_payload_types encrypt buf = .dropped m) →
      (¬ (getByte buf 1 &&& 0x7f = 106 ∧ buf.length > 12 ∧ getByte buf 12 &&& 0x1f = 24) →
        m = buf) ∧
      (∀ i, i ≠ 1 → i ≠ 12 → getByte m i = getByte buf i) ∧
      m.length = buf.length := by
  intro encrypt buf m h
  have hm := on_rtp_encrypted_input whip_payload_types encrypt buf m h
  subst hm
  refine ⟨?_, ?_, ?_⟩
  · intro hnot
    unfold rtp_process
    rw [if_neg (by simpa [whip_payload_types] using hnot)]
  · intro i hi1 hi12
    unfold rtp_process
    split
    · unfold stap_a_fixup
      rw [getByte_stap_a_nri_ne _ hi12, getByte_stap_a_marker_ne _ hi1]
    · rfl
  · unfold rtp_process
    split
    · unfold stap_a_fixup
      rw [length_stap_a_nri, length_stap_a_marker]
    · rfl

/-- Witness for C10 at the concrete STAP-A packet of the C4 scenario: byte 0
of the encrypted input equals byte 0 of the original packet. -/
theorem on_rtp_frame_c10_witness :
    getByte (rtp_process whip_payload_types
        [0x80, 0xEA, 0, 0, 0, 0, 0, 0, 0, 0, 0, 0, 0x18, 0, 0, 0x78]) 0 =
      getByte [0x80, 0xEA, 0, 0, 0, 0, 0, 0, 0, 0, 0, 0, 0x18, 0, 0, 0x78] 0 :=
  (on_rtp_frame_c10 (fun l => (l.length : Int) + 10)
    [0x80, 0xEA, 0, 0, 0, 0, 0, 0, 0, 0, 0, 0, 0x18, 0, 0, 0x78]
    (rtp_process whip_payload_types
      [0x80, 0xEA, 0, 0, 0, 0, 0, 0, 0, 0, 0, 0, 0x18, 0, 0, 0x78])
    (Or.inl ⟨26, by decide⟩)).2.1 0 (by decide) (by decide)

/-! ## H.264 extradata parsing (isom_read_avcc, rtcenc.c lines 1045-1146) -/

/-- A bounded avio reader over the extradata buffer, as created by
`avio_alloc_context(extradata, extradata_size, 0, ...)`: reads past the end
return 0 and latch the eof flag that `avio_feof` reports. -/
structure AvioReader where
  data : List Nat
  pos : Nat
  eof : Bool
deriving DecidableEq, Repr

/-- avio_r8: one byte, or 0 with the eof flag latched past the end. -/
def avio_r8 (r : AvioReader) : Nat × AvioReader :=
  if h : r.pos < r.data.length then
    (r.data.get ⟨r.pos, h⟩, { r with pos := r.pos + 1 })
  else (0, { r with eof := true })

/-- avio_rb16: two bytes big-endian. -/
def avio_rb16 (r : AvioReader) : Nat × AvioReader :=
  let hi := avio_r8 r
  let lo := avio_r8 hi.2
  (hi.1 * 256 + lo.1, lo.2)

/-- avio_read of `n` bytes: copies what remains (up to `n`) and returns the
count actually read; falling short latches eof. -/
def avio_read (r : AvioReader) (n : Nat) : List Nat × Int × AvioReader :=
  let cnt := min n (r.data.length - r.pos)
  ((r.data.drop r.pos).take cnt, (cnt : Int),
    { r with pos := r.pos + cnt, eof := r.eof ∨ cnt < n })

/-- Modelled from the spec: ff_avc_find_startcode (libavformat/avc.c, not
under src/) is used by isom_read_avcc only as a presence test; the spec
reads "verify presence of any annex-B start code". This predicate holds
when the bytes 0x00 0x00 0x01 occur somewhere in the buffer (the 4-byte
form 0x00 0x00 0x00 0x01 contains the 3-byte form). -/
def avc_has_startcode : List Nat → Bool
  | 0 :: 0 :: 1 :: _ => true
  | _ :: rest => avc_has_startcode rest
  | [] => false

/-- Result of isom_read_avcc: the return code and the RTCContext fields it
assigns (avc_nal_length_size starts at 0 in a fresh context; avc_sps /
avc_pps are none until stored). -/
structure AvccResult where
  ret : Int
  avc_nal_length_size : Nat
  avc_sps : Option (List Nat)
  avc_pps : Option (List Nat)
deriving DecidableEq, Repr

/-- The SPS/PPS reading tail of isom_read_avcc (rtcenc.c lines 1089-1145),
entered after `avc_nal_length_size` has been stored as `nls`. Each failure
returns AVERROR_INVALIDDATA with the fields assigned so far kept; on full
success the C function returns the result of the last avio_read. -/
def read_sps_pps (r : AvioReader) (nls : Nat) (nb_sps_byte : Nat) : AvccResult :=
  let nb_sps := nb_sps_byte &&& 0x1f
  if nb_sps ≠ 1 ∨ r.eof then ⟨averror_invaliddata, nls, none, none⟩
  else
    let spsSz := avio_rb16 r
    if spsSz.1 = 0 ∨ spsSz.2.eof then ⟨averror_invaliddata, nls, none, none⟩
    else
      let spsRd := avio_read spsSz.2 spsSz.1
      if spsRd.2.1 < 0 then ⟨spsRd.2.1, nls, some spsRd.1, none⟩
      else
        let nbPps := avio_r8 spsRd.2.2
        if nbPps.1 ≠ 1 ∨ nbPps.2.eof then ⟨averror_invaliddata, nls, some spsRd.1, none⟩
        else
          let ppsSz := avio_rb16 nbPps.2
          if ppsSz.1 = 0 ∨ ppsSz.2.eof then ⟨averror_invaliddata, nls, some spsRd.1, none⟩
          else
            let ppsRd := avio_read ppsSz.2 ppsSz.1
            if ppsRd.2.1 < 0 then ⟨ppsRd.2.1, nls, some spsRd.1, some ppsRd.1⟩
            else ⟨ppsRd.2.1, nls, some spsRd.1, some ppsRd.1⟩

/-- isom_read_avcc (rtcenc.c lines 1045-1146). Empty extradata returns 0;
non-AVCC extradata (size < 4 or first byte not 1) must contain an annex-B
start code, else AVERROR_INVALIDDATA; AVCC extradata is read through the
avio reader: version, profile, compat, level, the nal-length-size byte and
the SPS-count byte, with version != 1 rejected, the stored
`avc_nal_length_size = (byte & 0x03) + 1` rejected when it equals 3, and
the SPS/PPS tail read afterwards. -/
def isom_read_avcc (extradata : List Nat) : AvccResult :=
  if extradata.length = 0 then ⟨0, 0, none, none⟩
  else if extradata.length < 4 ∨ getByte extradata 0 ≠ 1 then
    if avc_has_startcode extradata then ⟨0, 0, none, none⟩
    else ⟨averror_invaliddata, 0, none, none⟩
  else
    let r0 : AvioReader := ⟨extradata, 0, false⟩
    let ver := avio_r8 r0
    let p1 := avio_r8 ver.2
    let p2 := avio_r8 p1.2
    let p3 := avio_r8 p2.2
    let nalB := avio_r8 p3.2
    let nbSpsB := avio_r8 nalB.2
    if ver.1 ≠ 1 then ⟨averror_invaliddata, 0, none, none⟩
    else
      let nls := (nalB.1 &&& 0x03) + 1
      if nls = 3 then ⟨averror_invaliddata, nls, none, none⟩
      else read_sps_pps nbSpsB.2 nls nbSpsB.1

theorem read_sps_pps_keeps_nls (r : AvioReader) (nls nb : Nat) :
    (read_sps_pps r nls nb).avc_nal_length_size = nls := by
  simp only [read_sps_pps]
  repeat' split
  all_goals rfl

theorem avio_r8_in (d : List Nat) (p : Nat) (e : Bool) (h : p < d.length) :
    avio_r8 ⟨d, p, e⟩ = (getByte d p, ⟨d, p + 1, e⟩) := by
  unfold avio_r8
  rw [dif_pos h]
  simp [getByte, List.getD_eq_getElem?_getD, List.getElem?_eq_getElem h]

theorem isom_read_avcc_eval (ed : List Nat) (h5 : 5 ≤ ed.length) (h0 : getByte ed 0 = 1) :
    isom_read_avcc ed =
      if (getByte ed 4 &&& 0x03) + 1 = 3 then
        ⟨averror_invaliddata, (getByte ed 4 &&& 0x03) + 1, none, none⟩
      else
        read_sps_pps (avio_r8 ⟨ed, 5, false⟩).2 ((getByte ed 4 &&& 0x03) + 1)
          (avio_r8 ⟨ed, 5, false⟩).1 := by
  have h1 : ¬ (ed.length = 0) := by omega
  have h2 : ¬ (ed.length < 4 ∨ getByte ed 0 ≠ 1) := by
    push_neg
    exact ⟨by omega, h0⟩
  simp only [isom_read_avcc, if_neg h1, if_neg h2,
    avio_r8_in ed 0 false (by omega), avio_r8_in ed 1 false (by omega),
    avio_r8_in ed 2 false (by omega), avio_r8_in ed 3 false (by omega),
    avio_r8_in ed 4 false (by omega), h0]
  rw [if_neg (by omega : ¬ (ed.length < 4 ∨ (1 : Nat) ≠ 1))]
  norm_num

/-- C7: for AVCC extradata (first byte 1) whose nal_length_size byte exists,
a low-two-bit value of 2 (NAL length size 3) makes isom_read_avcc return
AVERROR_INVALIDDATA (so rtc_init fails); any other low-two-bit value is
stored as `avc_nal_length_size = (byte & 0x03) + 1`, i.e. 1, 2 or 4. -/
theorem isom_avcc_nal_length_c7 :
    ∀ ed : List Nat, 5 ≤ ed.length → getByte ed 0 = 1 →
      (getByte ed 4 &&& 0x03 = 2 → (isom_read_avcc ed).ret = averror_invaliddata) ∧
      (getByte ed 4 &&& 0x03 ≠ 2 →
        (isom_read_avcc ed).avc_nal_length_size = (getByte ed 4 &&& 0x03) + 1) := by
  intro ed h5 h0
  rw [isom_read_avcc_eval ed h5 h0]
  constructor
  · intro h2
    rw [h2, if_pos rfl]
  · intro h2
    rw [if_neg (by omega)]
    exact read_sps_pps_keeps_nls _ _ _

/-- Witness for C7: low-two-bit value 2 is rejected; value 3 stores
nal_length_size 4. -/
theorem isom_avcc_nal_length_c7_witness :
    (isom_read_avcc [1, 0x64, 0, 30, 0xFE, 0xE1]).ret = averror_invaliddata ∧
    (isom_read_avcc [1, 0x64, 0, 30, 0xFF, 0xE1]).avc_nal_length_size =
      (getByte [1, 0x64, 0, 30, 0xFF, 0xE1] 4 &&& 0x03) + 1 :=
  ⟨(isom_avcc_nal_length_c7 [1, 0x64, 0, 30, 0xFE, 0xE1]
      (by decide) (by decide)).1 (by decide),
   (isom_avcc_nal_length_c7 [1, 0x64, 0, 30, 0xFF, 0xE1]
      (by decide) (by decide)).2 (by decide)⟩

/-- C8: non-empty extradata that is not AVCC (size < 4 or first byte not 1)
fails with AVERROR_INVALIDDATA when it contains no annex-B start code, and
returns 0 with no SPS/PPS stored when it does. -/
theorem isom_annexb_detect_c8 :
    ∀ ed : List Nat, ed ≠ [] → (ed.length < 4 ∨ getByte ed 0 ≠ 1) →
      (avc_has_startcode ed = false → (isom_read_avcc ed).ret = averror_invaliddata) ∧
      (avc_has_startcode ed = true →
        isom_read_avcc ed = ⟨0, 0, none, none⟩) := by
  intro ed hne hcond
  have h1 : ¬ (ed.length = 0) := fun h => hne (List.length_eq_zero.mp h)
  constructor
  · intro hsc
    simp only [isom_read_avcc, if_neg h1, if_pos hcond, hsc]
    rfl
  · intro hsc
    simp only [isom_read_avcc, if_neg h1, if_pos hcond, hsc, if_true]

/-- Witness for C8: the 2-byte buffer 0x02 0x03 has no start code and is
rejected; the annex-B buffer 00 00 01 0x67 0x42 parses as 0 with nothing
stored. -/
theorem isom_annexb_detect_c8_witness :
    (isom_read_avcc [2, 3]).ret = averror_invaliddata ∧
    isom_read_avcc [0, 0, 1, 0x67, 0x42] = ⟨0, 0, none, none⟩ :=
  ⟨(isom_annexb_detect_c8 [2, 3] (by decide) (by decide)).1 (by decide),
   (isom_annexb_detect_c8 [0, 0, 1, 0x67, 0x42] (by decide) (by decide)).2 (by decide)⟩

/-! ## The STUN binding request (ice_create_request, rtcenc.c lines 1571-1645) -/

/-- avio_wb16: two bytes big-endian, truncated bytewise like the C buffer. -/
def wb16 (v : Nat) : List Nat := [v / 256 % 256, v % 256]

/-- avio_wb32: four bytes big-endian. -/
def wb32 (v : Nat) : List Nat :=
  [v / 2 ^ 24 % 256, v / 2 ^ 16 % 256, v / 256 % 256, v % 256]

/-- A trace of one ice_create_request call: the final packet and request
size, plus the inputs of the MESSAGE-INTEGRITY HMAC and FINGERPRINT CRC as
they were taken (`buf_at_integrity` is the buffer contents at the moment
the HMAC runs, `size_at_integrity` the value `avio_tell` returned there). -/
structure ICERequestTrace where
  packet : List Nat
  request_size : Nat
  hmac_key : List Nat
  hmac_input : List Nat
  buf_at_integrity : List Nat
  size_at_integrity : Nat
  crc_input : List Nat
deriving DecidableEq, Repr

/-- ice_create_request (rtcenc.c lines 1571-1645). `tid` stands for the
three random 32-bit transaction-id words (12 bytes); `hmac_sha1 key msg`
abstracts av_hmac(SHA1) producing the 20-byte tag; `crc32ieee` abstracts
av_crc over AV_CRC_32_IEEE_LE with the final xor of 0xFFFFFFFF applied.
The buffer is built as: 20-byte header (type 0x0001, zero length, magic
cookie, tid), USERNAME attribute (`remote ":" local`, zero-padded to 4),
zero-length USE-CANDIDATE, MESSAGE-INTEGRITY header plus 20 zero bytes;
then bytes 2-3 are set to size-20, the HMAC keyed with the remote ice_pwd
is taken over the first size-24 bytes and written over the 20 zero bytes;
then the FINGERPRINT attribute is appended, bytes 2-3 are set again, and
the CRC over the first size-8 bytes xored with 0x5354554E is written. -/
def ice_create_request (tid ufragRemote ufragLocal pwdRemote : List Nat)
    (hmac_sha1 : List Nat → List Nat → List Nat)
    (crc32ieee : List Nat → Nat) : ICERequestTrace :=
  let username := ufragRemote ++ [0x3A] ++ ufragLocal
  let ulen := username.length
  let pre := [0x00, 0x01] ++ wb16 0 ++ [0x21, 0x12, 0xA4, 0x42] ++ tid
    ++ [0x00, 0x06] ++ wb16 ulen ++ username ++ List.replicate ((4 - ulen % 4) % 4) 0
    ++ [0x00, 0x25, 0x00, 0x00]
    ++ [0x00, 0x08] ++ wb16 20 ++ List.replicate 20 0
  let size := pre.length
  let pre2 := (pre.set 2 ((size - 20) / 256 % 256)).set 3 ((size - 20) % 256)
  let msg := pre2.take (size - 24)
  let tag := hmac_sha1 pwdRemote msg
  let afterMI := pre2.take (size - 20) ++ tag
  let withFP := afterMI ++ [0x80, 0x28] ++ wb16 4 ++ List.replicate 4 0
  let size2 := withFP.length
  let withLen2 := (withFP.set 2 ((size2 - 20) / 256 % 256)).set 3 ((size2 - 20) % 256)
  let crcIn := withLen2.take (size2 - 8)
  let fin := withLen2.take (size2 - 4) ++ wb32 (Nat.xor (crc32ieee crcIn) 0x5354554E)
  ⟨fin, size2, pwdRemote, msg, pre2, size, crcIn⟩

/-- C3 counterexample: at concrete inputs (tid of 12 zero bytes, ufrags
"abcd"/"efgh", a 2-byte remote pwd, any tag/crc functions) the HMAC input
is NOT the buffer up to but excluding the 20-byte integrity value: the code
hashes only up to the MESSAGE-INTEGRITY attribute header, 4 bytes less. -/
theorem ice_request_hmac_coverage_c3_counterexample :
    (ice_create_request (List.replicate 12 0) [0x61, 0x62, 0x63, 0x64]
        [0x65, 0x66, 0x67, 0x68] [0x70, 0x71]
        (fun _ _ => List.replicate 20 0) (fun _ => 0)).hmac_input ≠
      ((ice_create_request (List.replicate 12 0) [0x61, 0x62, 0x63, 0x64]
          [0x65, 0x66, 0x67, 0x68] [0x70, 0x71]
          (fun _ _ => List.replicate 20 0) (fun _ => 0)).buf_at_integrity.take
        ((ice_create_request (List.replicate 12 0) [0x61, 0x62, 0x63, 0x64]
            [0x65, 0x66, 0x67, 0x68] [0x70, 0x71]
            (fun _ _ => List.replicate 20 0) (fun _ => 0)).size_at_integrity - 20)) := by
  decide

/-- C3 (amended): in the STUN binding request the header length field
(bytes 2 and 3) is written as size-at-MESSAGE-INTEGRITY minus 20 before the
tag is computed, and the 20-byte HMAC-SHA1 tag is keyed with the remote
ice_pwd over the message bytes from the start of the buffer up to but
excluding the whole MESSAGE-INTEGRITY attribute - its 4-byte type/length
header as well as its 20-byte value - i.e. over the first size-24 bytes. -/
theorem ice_request_hmac_coverage_c3 :
    ∀ (tid ufragRemote ufragLocal pwdRemote : List Nat)
      (hmac_sha1 : List Nat → List Nat → List Nat) (crc32ieee : List Nat → Nat)
      (tr : ICERequestTrace),
      tid.length = 12 →
      ufragRemote.length + ufragLocal.length + 1 < 128 →
      tr = ice_create_request tid ufragRemote ufragLocal pwdRemote hmac_sha1 crc32ieee →
      tr.hmac_key = pwdRemote ∧
      tr.hmac_input = tr.buf_at_integrity.take (tr.size_at_integrity - 24) ∧
      getByte tr.buf_at_integrity 2 = (tr.size_at_integrity - 20) / 256 % 256 ∧
      getByte tr.buf_at_integrity 3 = (tr.size_at_integrity - 20) % 256 := by
  intro tid ur ul pwd hmac_sha1 crc32ieee tr htid hulen htr
  subst htr
  simp only [ice_create_request]
  refine ⟨trivial, trivial, ?_, ?_⟩
  · rw [getByte_set_ne _ _ (by omega : (3 : Nat) ≠ 2),
      getByte_set_self _ _ (by simp [wb16])]
  · rw [getByte_set_self _ _ (by simp [wb16])]

/-- Witness for the amended C3 at the counterexample's concrete inputs. -/
theorem ice_request_hmac_coverage_c3_witness :
    (ice_create_request (List.replicate 12 0) [0x61, 0x62, 0x63, 0x64]
        [0x65, 0x66, 0x67, 0x68] [0x70, 0x71]
        (fun _ _ => List.replicate 20 0) (fun _ => 0)).hmac_key = [0x70, 0x71] ∧
    (ice_create_request (List.replicate 12 0) [0x61, 0x62, 0x63, 0x64]
        [0x65, 0x66, 0x67, 0x68] [0x70, 0x71]
        (fun _ _ => List.replicate 20 0) (fun _ => 0)).hmac_input =
      ((ice_create_request (List.replicate 12 0) [0x61, 0x62, 0x63, 0x64]
          [0x65, 0x66, 0x67, 0x68] [0x70, 0x71]
          (fun _ _ => List.replicate 20 0) (fun _ => 0)).buf_at_integrity.take
        ((ice_create_request (List.replicate 12 0) [0x61, 0x62, 0x63, 0x64]
            [0x65, 0x66, 0x67, 0x68] [0x70, 0x71]
            (fun _ _ => List.replicate 20 0) (fun _ => 0)).size_at_integrity - 24)) ∧
    getByte (ice_create_request (List.replicate 12 0) [0x61, 0x62, 0x63, 0x64]
        [0x65, 0x66, 0x67, 0x68] [0x70, 0x71]
        (fun _ _ => List.replicate 20 0) (fun _ => 0)).buf_at_integrity 2 =
      ((ice_create_request (List.replicate 12 0) [0x61, 0x62, 0x63, 0x64]
          [0x65, 0x66, 0x67, 0x68] [0x70, 0x71]
          (fun _ _ => List.replicate 20 0) (fun _ => 0)).size_at_integrity - 20) / 256 % 256 ∧
    getByte (ice_create_request (List.replicate 12 0) [0x61, 0x62, 0x63, 0x64]
        [0x65, 0x66, 0x67, 0x68] [0x70, 0x71]
        (fun _ _ => List.replicate 20 0) (fun _ => 0)).buf_at_integrity 3 =
      ((ice_create_request (List.replicate 12 0) [0x61, 0x62, 0x63, 0x64]
          [0x65, 0x66, 0x67, 0x68] [0x70, 0x71]
          (fun _ _ => List.replicate 20 0) (fun _ => 0)).size_at_integrity - 20) % 256 :=
  ice_request_hmac_coverage_c3 (List.replicate 12 0) [0x61, 0x62, 0x63, 0x64]
    [0x65, 0x66, 0x67, 0x68] [0x70, 0x71]
    (fun _ _ => List.replicate 20 0) (fun _ => 0) _ (by decide) (by decide) rfl

end RtcEnc
